import Mathlib

/-!
Shallow embedding of `nets/resnet.py` (a ResNet image-classifier builder with a
Ghost-style cheap-convolution module): module shapes, construction-time
validation, the stage builder `_make_layer`, parameter initialization, the
backbone freeze/unfreeze controls and the five named presets.

Tensors' random numeric contents are abstracted (weight values that are
randomly initialised are modelled as 0); everything the claims speak about
(channel counts, strides, dilations, shortcut attachment, normalization
scales, trainability flags, construction errors) is modelled exactly.
Python floating-point division appearing in channel-width formulas is
modelled in exact rational arithmetic, as the corresponding claim directs.
-/

namespace PEEN

/-- A learnable tensor: its (abstracted) value and its `requires_grad` flag.
PyTorch module parameters are created with `requires_grad = True`. -/
structure Param where
  value : Int
  requires_grad : Bool
  deriving DecidableEq

/-- A freshly created parameter tensor (flag defaults to true). -/
def Param.new (v : Int) : Param := ⟨v, true⟩

/-- `param.requires_grad = b` assignment. -/
def Param.set_requires_grad (b : Bool) (p : Param) : Param :=
  { p with requires_grad := b }

/-- `nn.Conv2d(in_channels, out_channels, kernel_size, stride, padding,
groups=…, dilation=…, bias=False)`.  The weight's sampled values are
abstracted to 0. -/
structure Conv2d where
  in_channels : Nat
  out_channels : Nat
  kernel_size : Nat
  stride : Nat
  padding : Nat
  groups : Nat
  dilation : Nat
  weight : Param
  deriving DecidableEq

def Conv2d.new (cin cout k s p g d : Nat) : Conv2d :=
  ⟨cin, cout, k, s, p, g, d, Param.new 0⟩

/-- `nn.BatchNorm2d(num_features)`: affine scale and shift, created at
(weight 1, bias 0) as in PyTorch. -/
structure NormLayer where
  num_features : Nat
  weight : Param
  bias : Param
  deriving DecidableEq

def NormLayer.new (n : Nat) : NormLayer := ⟨n, Param.new 1, Param.new 0⟩

/-- `nn.Linear(in_features, out_features)`; sampled initial values abstracted. -/
structure Linear where
  in_features : Nat
  out_features : Nat
  weight : Param
  bias : Param
  deriving DecidableEq

def Linear.new (i o : Nat) : Linear := ⟨i, o, Param.new 0, Param.new 0⟩

/-- `conv3x3` from the source: 3x3 convolution with padding = dilation. -/
def conv3x3 (in_planes out_planes : Nat) (stride : Nat := 1) (groups : Nat := 1)
    (dilation : Nat := 1) : Conv2d :=
  Conv2d.new in_planes out_planes 3 stride dilation groups dilation

/-- `conv1x1` from the source: 1x1 convolution, no padding. -/
def conv1x1 (in_planes out_planes : Nat) (stride : Nat := 1) : Conv2d :=
  Conv2d.new in_planes out_planes 1 stride 0 1 1

/-- The `nn.Sequential(conv1x1 …, norm_layer …)` projection shortcut. -/
structure Downsample where
  conv : Conv2d
  norm : NormLayer
  deriving DecidableEq

/-- The error messages raised by the source, verbatim. -/
def basic_groups_msg : String := "BasicBlock only supports groups=1 and base_width=64"

def basic_dilation_msg : String := "Dilation > 1 not supported in BasicBlock"

/-- The `replace_stride_with_dilation` ValueError message (the source appends
the offending value with str.format; the formatted payload is not modelled). -/
def rswd_msg : String := "replace_stride_with_dilation should be None or a 3-element tuple"

/-- `class BasicBlock(nn.Module)`: the plain two-convolution residual block. -/
structure BasicBlock where
  conv1 : Conv2d
  bn1 : NormLayer
  conv2 : Conv2d
  bn2 : NormLayer
  downsample : Option Downsample
  stride : Nat
  deriving DecidableEq

def BasicBlock.expansion : Nat := 1

/-- `BasicBlock.__init__`: raises ValueError when `groups != 1 or
base_width != 64`, NotImplementedError when `dilation > 1`; otherwise builds
the two 3x3 Conv-Norm sublayers (only the first carries the stride). -/
def BasicBlock.init (inplanes planes : Nat) (stride : Nat) (downsample : Option Downsample)
    (groups base_width dilation : Nat) : Except String BasicBlock :=
  if groups ≠ 1 ∨ base_width ≠ 64 then
    Except.error basic_groups_msg
  else if dilation > 1 then
    Except.error basic_dilation_msg
  else
    Except.ok
      { conv1 := conv3x3 inplanes planes stride
        bn1 := NormLayer.new planes
        conv2 := conv3x3 planes planes
        bn2 := NormLayer.new planes
        downsample := downsample
        stride := stride }

/-- `class Bottleneck(nn.Module)`: 1x1 reduce, 3x3, 1x1 expand. -/
structure Bottleneck where
  conv1 : Conv2d
  bn1 : NormLayer
  conv2 : Conv2d
  bn2 : NormLayer
  conv3 : Conv2d
  bn3 : NormLayer
  downsample : Option Downsample
  stride : Nat
  deriving DecidableEq

def Bottleneck.expansion : Nat := 4

/-- `width = int(planes * (base_width / 64.)) * groups`.  The Python float
division and `int` truncation are modelled in exact rational arithmetic with a
floor (the operand is nonnegative, so truncation is the floor). -/
def Bottleneck.width (planes base_width groups : Nat) : Nat :=
  ⌊(planes : ℚ) * ((base_width : ℚ) / 64)⌋₊ * groups

/-- `Bottleneck.__init__`: no validation; the 3x3 stage is the sole carrier of
stride, groups and dilation, and the 1x1 expand outputs `planes * expansion`. -/
def Bottleneck.init (inplanes planes : Nat) (stride : Nat) (downsample : Option Downsample)
    (groups base_width dilation : Nat) : Bottleneck :=
  let width := Bottleneck.width planes base_width groups
  { conv1 := conv1x1 inplanes width
    bn1 := NormLayer.new width
    conv2 := conv3x3 width width stride groups dilation
    bn2 := NormLayer.new width
    conv3 := conv1x1 width (planes * Bottleneck.expansion)
    bn3 := NormLayer.new (planes * Bottleneck.expansion)
    downsample := downsample
    stride := stride }

/-- The block class passed to the ResNet constructor. -/
inductive BlockTemplate where
  | basic
  | bottleneck
  deriving DecidableEq

/-- A constructed block instance. -/
inductive Block where
  | basic (b : BasicBlock)
  | bottleneck (b : Bottleneck)
  deriving DecidableEq

/-- `block.expansion` of the class object. -/
def BlockTemplate.expansion : BlockTemplate → Nat
  | .basic => BasicBlock.expansion
  | .bottleneck => Bottleneck.expansion

/-- Calling the block class: `block(inplanes, planes, stride, downsample,
groups, base_width, dilation, norm_layer)`. -/
def BlockTemplate.init (t : BlockTemplate) (inplanes planes : Nat) (stride : Nat)
    (downsample : Option Downsample) (groups base_width dilation : Nat) :
    Except String Block :=
  match t with
  | .basic =>
      (BasicBlock.init inplanes planes stride downsample groups base_width dilation).map
        Block.basic
  | .bottleneck =>
      Except.ok
        (Block.bottleneck
          (Bottleneck.init inplanes planes stride downsample groups base_width dilation))

/-- The stored shortcut of a constructed block. -/
def Block.downsample : Block → Option Downsample
  | .basic b => b.downsample
  | .bottleneck b => b.downsample

/-- The running construction state mutated by `_make_layer`:
`self.inplanes` and `self.dilation`. -/
structure BuilderState where
  inplanes : Nat
  dilation : Nat
  deriving DecidableEq

/-- The `for _ in range(1, blocks)` loop of `_make_layer`, appending `k`
identity blocks, each built as `block(self.inplanes, planes, groups=…,
base_width=…, dilation=self.dilation, norm_layer=…)`; a raised exception
aborts the loop. -/
def identity_loop (t : BlockTemplate) (inplanes planes groups base_width dilation : Nat) :
    Nat → Except String (List Block)
  | 0 => .ok []
  | k + 1 =>
    match t.init inplanes planes 1 none groups base_width dilation with
    | .error e => .error e
    | .ok b =>
      match identity_loop t inplanes planes groups base_width dilation k with
      | .error e => .error e
      | .ok rest => .ok (b :: rest)

/-- `ResNet._make_layer(block, planes, blocks, stride, dilate)`.  Exceptions
raised by a block constructor propagate as `Except.error`.  The two inner
`let`s shadow `stride` and compute the inflated dilation exactly in the
source's order (`self.dilation *= stride` happens before `stride = 1`). -/
def make_layer (t : BlockTemplate) (groups base_width : Nat) (s : BuilderState)
    (planes blocks : Nat) (stride : Nat := 1) (dilate : Bool := false) :
    Except String (List Block × BuilderState) :=
  let previous_dilation := s.dilation
  let dilation := if dilate then s.dilation * stride else s.dilation
  let stride := if dilate then 1 else stride
  let downsample : Option Downsample :=
    if stride ≠ 1 ∨ s.inplanes ≠ planes * t.expansion then
      some { conv := conv1x1 s.inplanes (planes * t.expansion) stride
             norm := NormLayer.new (planes * t.expansion) }
    else none
  match t.init s.inplanes planes stride downsample groups base_width previous_dilation with
  | .error e => .error e
  | .ok first =>
    let inplanes := planes * t.expansion
    match identity_loop t inplanes planes groups base_width dilation (blocks - 1) with
    | .error e => .error e
    | .ok rest => .ok (first :: rest, { inplanes := inplanes, dilation := dilation })

/-- The assembled network: stem, four stages, classifier head, plus the
constructor arguments the object keeps (`self.block`, `self.groups`,
`self.base_width`).  The parameterless maxpool/avgpool layers are omitted. -/
structure ResNet where
  block : BlockTemplate
  groups : Nat
  base_width : Nat
  conv1 : Conv2d
  bn1 : NormLayer
  layer1 : List Block
  layer2 : List Block
  layer3 : List Block
  layer4 : List Block
  fc : Linear
  deriving DecidableEq

/-- Map a function over every `NormLayer` of a shortcut. -/
def Downsample.map_norms (f : NormLayer → NormLayer) (d : Downsample) : Downsample :=
  { d with norm := f d.norm }

def BasicBlock.map_norms (f : NormLayer → NormLayer) (b : BasicBlock) : BasicBlock :=
  { b with bn1 := f b.bn1, bn2 := f b.bn2,
           downsample := b.downsample.map (Downsample.map_norms f) }

def Bottleneck.map_norms (f : NormLayer → NormLayer) (b : Bottleneck) : Bottleneck :=
  { b with bn1 := f b.bn1, bn2 := f b.bn2, bn3 := f b.bn3,
           downsample := b.downsample.map (Downsample.map_norms f) }

def Block.map_norms (f : NormLayer → NormLayer) : Block → Block
  | .basic b => .basic (b.map_norms f)
  | .bottleneck b => .bottleneck (b.map_norms f)

/-- Map over every normalization layer of the network (`self.modules()`
restricted to `nn.BatchNorm2d`; the head is a `Linear` and is not visited). -/
def ResNet.map_norms (f : NormLayer → NormLayer) (m : ResNet) : ResNet :=
  { m with bn1 := f m.bn1,
           layer1 := m.layer1.map (Block.map_norms f),
           layer2 := m.layer2.map (Block.map_norms f),
           layer3 := m.layer3.map (Block.map_norms f),
           layer4 := m.layer4.map (Block.map_norms f) }

/-- The initialization pass over `self.modules()`: every convolution weight
receives Kaiming values (abstracted — values are not modelled), every
normalization layer gets `weight = 1`, `bias = 0` via `nn.init.constant_`
(which writes the tensor data and keeps the `requires_grad` flag). -/
def ResNet.init_weights (m : ResNet) : ResNet :=
  m.map_norms fun n =>
    { n with weight := { n.weight with value := 1 }, bias := { n.bias with value := 0 } }

/-- `if isinstance(m, Bottleneck): nn.init.constant_(m.bn3.weight, 0)`. -/
def Block.zero_init_bn3 : Block → Block
  | .basic b => .basic b
  | .bottleneck b =>
      .bottleneck { b with bn3 := { b.bn3 with weight := { b.bn3.weight with value := 0 } } }

/-- The `zero_init_residual` pass over `self.modules()` (all `Bottleneck`
instances live inside the four stage lists). -/
def ResNet.zero_init (m : ResNet) : ResNet :=
  { m with layer1 := m.layer1.map Block.zero_init_bn3,
           layer2 := m.layer2.map Block.zero_init_bn3,
           layer3 := m.layer3.map Block.zero_init_bn3,
           layer4 := m.layer4.map Block.zero_init_bn3 }

/-- `ResNet.__init__(block, layers, num_classes, zero_init_residual, groups,
width_per_group, replace_stride_with_dilation, norm_layer)`.  The four-entry
`layers` list is a 4-tuple; exception propagation is the explicit match
chain; the stem and head are built as in the source. -/
def ResNet.init (block : BlockTemplate) (layers : Nat × Nat × Nat × Nat)
    (num_classes : Nat := 1000) (zero_init_residual : Bool := false)
    (groups : Nat := 1) (width_per_group : Nat := 64)
    (replace_stride_with_dilation : Option (List Bool) := none) :
    Except String ResNet :=
  let rswd := replace_stride_with_dilation.getD [false, false, false]
  if rswd.length ≠ 3 then Except.error rswd_msg
  else
    match make_layer block groups width_per_group ⟨64, 1⟩ 64 layers.1 1 false with
    | .error e => .error e
    | .ok (layer1, s1) =>
      match make_layer block groups width_per_group s1 128 layers.2.1 2 (rswd.getD 0 false) with
      | .error e => .error e
      | .ok (layer2, s2) =>
        match make_layer block groups width_per_group s2 256 layers.2.2.1 2 (rswd.getD 1 false) with
        | .error e => .error e
        | .ok (layer3, s3) =>
          match make_layer block groups width_per_group s3 512 layers.2.2.2 2 (rswd.getD 2 false) with
          | .error e => .error e
          | .ok (layer4, _) =>
            let m : ResNet :=
              { block := block, groups := groups, base_width := width_per_group
                conv1 := Conv2d.new 3 64 7 2 3 1 1
                bn1 := NormLayer.new 64
                layer1 := layer1, layer2 := layer2, layer3 := layer3, layer4 := layer4
                fc := Linear.new (512 * block.expansion) num_classes }
            let m := m.init_weights
            .ok (if zero_init_residual then m.zero_init else m)

/-- `module.parameters()` for each module shape, in traversal order. -/
def Conv2d.params (c : Conv2d) : List Param := [c.weight]

def NormLayer.params (n : NormLayer) : List Param := [n.weight, n.bias]

def Linear.params (l : Linear) : List Param := [l.weight, l.bias]

def Downsample.params (d : Downsample) : List Param := d.conv.params ++ d.norm.params

def BasicBlock.params (b : BasicBlock) : List Param :=
  b.conv1.params ++ b.bn1.params ++ b.conv2.params ++ b.bn2.params ++
    (match b.downsample with
     | some d => d.params
     | none => [])

def Bottleneck.params (b : Bottleneck) : List Param :=
  b.conv1.params ++ b.bn1.params ++ b.conv2.params ++ b.bn2.params ++
    b.conv3.params ++ b.bn3.params ++
    (match b.downsample with
     | some d => d.params
     | none => [])

def Block.params : Block → List Param
  | .basic b => b.params
  | .bottleneck b => b.params

/-- The parameters of `[self.conv1, self.bn1, self.layer1, self.layer2,
self.layer3, self.layer4]` — the list the freeze/unfreeze loops walk. -/
def ResNet.backbone_params (m : ResNet) : List Param :=
  m.conv1.params ++ m.bn1.params ++
    ((m.layer1 ++ m.layer2 ++ m.layer3 ++ m.layer4).map Block.params).flatten

/-- Apply `f` to every parameter of the module, in place. -/
def Conv2d.map_params (f : Param → Param) (c : Conv2d) : Conv2d :=
  { c with weight := f c.weight }

def NormLayer.map_params (f : Param → Param) (n : NormLayer) : NormLayer :=
  { n with weight := f n.weight, bias := f n.bias }

def Downsample.map_params (f : Param → Param) (d : Downsample) : Downsample :=
  { conv := d.conv.map_params f, norm := d.norm.map_params f }

def BasicBlock.map_params (f : Param → Param) (b : BasicBlock) : BasicBlock :=
  { b with conv1 := b.conv1.map_params f, bn1 := b.bn1.map_params f,
           conv2 := b.conv2.map_params f, bn2 := b.bn2.map_params f,
           downsample := b.downsample.map (Downsample.map_params f) }

def Bottleneck.map_params (f : Param → Param) (b : Bottleneck) : Bottleneck :=
  { b with conv1 := b.conv1.map_params f, bn1 := b.bn1.map_params f,
           conv2 := b.conv2.map_params f, bn2 := b.bn2.map_params f,
           conv3 := b.conv3.map_params f, bn3 := b.bn3.map_params f,
           downsample := b.downsample.map (Downsample.map_params f) }

def Block.map_params (f : Param → Param) : Block → Block
  | .basic b => .basic (b.map_params f)
  | .bottleneck b => .bottleneck (b.map_params f)

/-- `for module in backbone: for param in module.parameters(): param.requires_grad = b`
where `backbone = [self.conv1, self.bn1, self.layer1, …, self.layer4]`.
`self.fc` (and the parameterless pools) are not in the list. -/
def ResNet.set_backbone_grad (b : Bool) (m : ResNet) : ResNet :=
  { m with conv1 := m.conv1.map_params (Param.set_requires_grad b),
           bn1 := m.bn1.map_params (Param.set_requires_grad b),
           layer1 := m.layer1.map (Block.map_params (Param.set_requires_grad b)),
           layer2 := m.layer2.map (Block.map_params (Param.set_requires_grad b)),
           layer3 := m.layer3.map (Block.map_params (Param.set_requires_grad b)),
           layer4 := m.layer4.map (Block.map_params (Param.set_requires_grad b)) }

/-- `ResNet.freeze_backbone`. -/
def ResNet.freeze_backbone (m : ResNet) : ResNet := m.set_backbone_grad false

/-- `ResNet.Unfreeze_backbone` (sic). -/
def ResNet.Unfreeze_backbone (m : ResNet) : ResNet := m.set_backbone_grad true

/-- The normalization layers owned by each module shape. -/
def BasicBlock.norms (b : BasicBlock) : List NormLayer :=
  [b.bn1, b.bn2] ++
    (match b.downsample with
     | some d => [d.norm]
     | none => [])

def Bottleneck.norms (b : Bottleneck) : List NormLayer :=
  [b.bn1, b.bn2, b.bn3] ++
    (match b.downsample with
     | some d => [d.norm]
     | none => [])

def Block.norms : Block → List NormLayer
  | .basic b => b.norms
  | .bottleneck b => b.norms

/-- Every normalization layer of the assembled network. -/
def ResNet.norms (m : ResNet) : List NormLayer :=
  m.bn1 :: ((m.layer1 ++ m.layer2 ++ m.layer3 ++ m.layer4).map Block.norms).flatten

/-- `class GhostModule(nn.Module)`: a cheap primary convolution producing
`init_channels` intrinsic channels and a depth-wise expansion producing
`new_channels` extra channels.  `math.ceil(oup / ratio)` (Python float
division) is modelled as the exact rational ceiling.  Both Conv-Norm pairs
share the one `relu` flag, as in the source. -/
structure GhostModule where
  oup : Nat
  primary_conv : Conv2d
  primary_bn : NormLayer
  cheap_operation : Conv2d
  cheap_bn : NormLayer
  relu : Bool
  deriving DecidableEq

def GhostModule.init (inp oup : Nat) (kernel_size : Nat := 1) (ratio : Nat := 2)
    (dw_size : Nat := 3) (stride : Nat := 1) (relu : Bool := true) : GhostModule :=
  let init_channels := (⌈(oup : ℚ) / (ratio : ℚ)⌉).toNat
  let new_channels := init_channels * (ratio - 1)
  { oup := oup
    primary_conv := Conv2d.new inp init_channels kernel_size stride (kernel_size / 2) 1 1
    primary_bn := NormLayer.new init_channels
    cheap_operation := Conv2d.new init_channels new_channels dw_size 1 (dw_size / 2)
      init_channels 1
    cheap_bn := NormLayer.new new_channels
    relu := relu }

/-- Channel count of `GhostModule.forward`'s output: `primary_conv` yields
its `out_channels`, `cheap_operation` its own, `torch.cat(dim=1)` sums them,
and the slice `out[:, :self.oup, :, :]` keeps at most `oup` channels. -/
def GhostModule.forward_channels (g : GhostModule) : Nat :=
  min (g.primary_conv.out_channels + g.cheap_operation.out_channels) g.oup

/-- `resnet18`: preset `[2, 2, 2, 2]` with `BasicBlock`.  The
pretrained-weight download is out-of-scope I/O and is modelled as the
`pretrained=False` path. -/
def resnet18 (num_classes : Nat := 1000) : Except String ResNet :=
  match ResNet.init .basic (2, 2, 2, 2) with
  | .error e => .error e
  | .ok model =>
    if num_classes ≠ 1000 then
      .ok { model with fc := Linear.new (512 * model.block.expansion) num_classes }
    else .ok model

/-- `resnet34`: preset `[3, 4, 6, 3]` with `BasicBlock`. -/
def resnet34 (num_classes : Nat := 1000) : Except String ResNet :=
  match ResNet.init .basic (3, 4, 6, 3) with
  | .error e => .error e
  | .ok model =>
    if num_classes ≠ 1000 then
      .ok { model with fc := Linear.new (512 * model.block.expansion) num_classes }
    else .ok model

/-- `resnet50`: preset `[3, 4, 6, 3]` with `Bottleneck`. -/
def resnet50 (num_classes : Nat := 1000) : Except String ResNet :=
  match ResNet.init .bottleneck (3, 4, 6, 3) with
  | .error e => .error e
  | .ok model =>
    if num_classes ≠ 1000 then
      .ok { model with fc := Linear.new (512 * model.block.expansion) num_classes }
    else .ok model

/-- `resnet101`: preset `[3, 4, 23, 3]` with `Bottleneck`. -/
def resnet101 (num_classes : Nat := 1000) : Except String ResNet :=
  match ResNet.init .bottleneck (3, 4, 23, 3) with
  | .error e => .error e
  | .ok model =>
    if num_classes ≠ 1000 then
      .ok { model with fc := Linear.new (512 * model.block.expansion) num_classes }
    else .ok model

/-- `resnet152`: preset `[3, 8, 36, 3]` with `Bottleneck`. -/
def resnet152 (num_classes : Nat := 1000) : Except String ResNet :=
  match ResNet.init .bottleneck (3, 8, 36, 3) with
  | .error e => .error e
  | .ok model =>
    if num_classes ≠ 1000 then
      .ok { model with fc := Linear.new (512 * model.block.expansion) num_classes }
    else .ok model

/-! ## Helper lemmas about the constructors and the stage builder -/

/-- Inversion for a successful `BasicBlock` construction. -/
theorem BasicBlock.basic_init_inv {inplanes planes stride : Nat} {ds : Option Downsample}
    {groups base_width dilation : Nat} {b : BasicBlock}
    (h : BasicBlock.init inplanes planes stride ds groups base_width dilation = Except.ok b) :
    groups = 1 ∧ base_width = 64 ∧ dilation ≤ 1 ∧
      b = { conv1 := conv3x3 inplanes planes stride, bn1 := NormLayer.new planes,
            conv2 := conv3x3 planes planes, bn2 := NormLayer.new planes,
            downsample := ds, stride := stride } := by
  unfold BasicBlock.init at h
  split at h
  · cases h
  · split at h
    · cases h
    · rename_i h1 h2
      push_neg at h1
      cases h
      exact ⟨h1.1, h1.2, by omega, rfl⟩

/-- A `BasicBlock` construction with the supported configuration succeeds. -/
theorem BasicBlock.init_ok (inplanes planes stride : Nat) (ds : Option Downsample)
    {dilation : Nat} (hd : dilation ≤ 1) :
    BasicBlock.init inplanes planes stride ds 1 64 dilation = Except.ok
      { conv1 := conv3x3 inplanes planes stride, bn1 := NormLayer.new planes,
        conv2 := conv3x3 planes planes, bn2 := NormLayer.new planes,
        downsample := ds, stride := stride } := by
  unfold BasicBlock.init
  rw [if_neg (by simp), if_neg (by omega)]

/-- A `BasicBlock` construction with an oversized dilation raises the
NotImplementedError. -/
theorem BasicBlock.init_dilation_error (inplanes planes stride : Nat) (ds : Option Downsample)
    {dilation : Nat} (hd : 1 < dilation) :
    BasicBlock.init inplanes planes stride ds 1 64 dilation =
      Except.error basic_dilation_msg := by
  unfold BasicBlock.init
  rw [if_neg (by simp), if_pos (by omega)]

/-- Any block instance returned by a template call stores the shortcut it was
given. -/
theorem BlockTemplate.init_downsample {t : BlockTemplate} {inplanes planes stride : Nat}
    {ds : Option Downsample} {groups base_width dilation : Nat} {b : Block}
    (h : t.init inplanes planes stride ds groups base_width dilation = Except.ok b) :
    b.downsample = ds := by
  cases t with
  | basic =>
    unfold BlockTemplate.init at h
    cases hb : BasicBlock.init inplanes planes stride ds groups base_width dilation with
    | error e => rw [hb] at h; cases h
    | ok bb =>
      rw [hb] at h
      cases h
      rw [(BasicBlock.basic_init_inv hb).2.2.2]
      rfl
  | bottleneck =>
    unfold BlockTemplate.init at h
    cases h
    rfl

/-- A template call on the plain-block template only returns plain blocks. -/
theorem BlockTemplate.init_basic_shape {inplanes planes stride : Nat}
    {ds : Option Downsample} {groups base_width dilation : Nat} {b : Block}
    (h : BlockTemplate.init .basic inplanes planes stride ds groups base_width dilation =
      Except.ok b) :
    ∃ x, b = Block.basic x := by
  unfold BlockTemplate.init at h
  cases hb : BasicBlock.init inplanes planes stride ds groups base_width dilation with
  | error e => rw [hb] at h; cases h
  | ok bb => rw [hb] at h; cases h; exact ⟨bb, rfl⟩

/-- A template call can only raise the two `BasicBlock` messages. -/
theorem BlockTemplate.init_error_msg {t : BlockTemplate} {inplanes planes stride : Nat}
    {ds : Option Downsample} {groups base_width dilation : Nat} {e : String}
    (h : t.init inplanes planes stride ds groups base_width dilation = Except.error e) :
    e = basic_groups_msg ∨ e = basic_dilation_msg := by
  cases t with
  | basic =>
    unfold BlockTemplate.init at h
    cases hb : BasicBlock.init inplanes planes stride ds groups base_width dilation with
    | error e' =>
      rw [hb] at h
      cases h
      unfold BasicBlock.init at hb
      split at hb
      · cases hb; exact Or.inl rfl
      · split at hb
        · cases hb; exact Or.inr rfl
        · cases hb
    | ok bb => rw [hb] at h; cases h
  | bottleneck => unfold BlockTemplate.init at h; cases h

/-- If the identity-block constructor succeeds, the loop returns `k` copies. -/
theorem identity_loop_of_ok {t : BlockTemplate} {inplanes planes groups base_width dilation : Nat}
    {b : Block}
    (hb : t.init inplanes planes 1 none groups base_width dilation = Except.ok b) (k : Nat) :
    identity_loop t inplanes planes groups base_width dilation k =
      Except.ok (List.replicate k b) := by
  induction k with
  | zero => rfl
  | succ k ih => unfold identity_loop; rw [hb, ih]; rfl

/-- If the identity-block constructor raises and at least one iteration runs,
the loop raises the same message. -/
theorem identity_loop_of_error {t : BlockTemplate} {inplanes planes groups base_width dilation : Nat}
    {e : String}
    (hb : t.init inplanes planes 1 none groups base_width dilation = Except.error e) {k : Nat}
    (hk : 1 ≤ k) :
    identity_loop t inplanes planes groups base_width dilation k = Except.error e := by
  cases k with
  | zero => omega
  | succ k => unfold identity_loop; rw [hb]

/-- Every block returned by the loop was built by the identity-block call. -/
theorem identity_loop_mem {t : BlockTemplate} {inplanes planes groups base_width dilation : Nat}
    {k : Nat} {l : List Block}
    (h : identity_loop t inplanes planes groups base_width dilation k = Except.ok l) :
    ∀ b ∈ l, t.init inplanes planes 1 none groups base_width dilation = Except.ok b := by
  induction k generalizing l with
  | zero =>
    unfold identity_loop at h
    cases h
    intro b hb
    cases hb
  | succ k ih =>
    unfold identity_loop at h
    split at h
    · cases h
    · rename_i b0 hb0
      split at h
      · cases h
      · rename_i rest hrest
        cases h
        intro b hb
        rcases List.mem_cons.mp hb with h' | h'
        · exact h' ▸ hb0
        · exact ih hrest b h'

/-- The loop's output has as many blocks as iterations. -/
theorem identity_loop_length {t : BlockTemplate} {inplanes planes groups base_width dilation : Nat}
    {k : Nat} {l : List Block}
    (h : identity_loop t inplanes planes groups base_width dilation k = Except.ok l) :
    l.length = k := by
  induction k generalizing l with
  | zero => unfold identity_loop at h; cases h; rfl
  | succ k ih =>
    unfold identity_loop at h
    split at h
    · cases h
    · split at h
      · cases h
      · rename_i rest hrest
        cases h
        simp [ih hrest]

/-- Inversion for a successful `_make_layer` call: the first block comes from
the one constructor call with the effective stride, the computed shortcut and
`previous_dilation`; the rest come from the identity loop at the updated
dilation; the running state ends at `planes * expansion` and the updated
dilation. -/
theorem make_layer_eq_ok {t : BlockTemplate} {groups base_width : Nat} {s : BuilderState}
    {planes n stride : Nat} {dilate : Bool} {bs : List Block} {s' : BuilderState}
    (h : make_layer t groups base_width s planes n stride dilate = Except.ok (bs, s')) :
    ∃ first rest,
      bs = first :: rest ∧
      t.init s.inplanes planes (if dilate then 1 else stride)
        (if (if dilate then 1 else stride) ≠ 1 ∨ s.inplanes ≠ planes * t.expansion then
          some { conv := conv1x1 s.inplanes (planes * t.expansion) (if dilate then 1 else stride)
                 norm := NormLayer.new (planes * t.expansion) }
        else none) groups base_width s.dilation = Except.ok first ∧
      identity_loop t (planes * t.expansion) planes groups base_width
        (if dilate then s.dilation * stride else s.dilation) (n - 1) = Except.ok rest ∧
      s' = ⟨planes * t.expansion, if dilate then s.dilation * stride else s.dilation⟩ := by
  cases dilate <;>
  · unfold make_layer at h
    simp only [Bool.false_eq_true, if_false, if_true] at h ⊢
    split at h
    · cases h
    · rename_i first hfirst
      split at h
      · cases h
      · rename_i rest hrest
        cases h
        exact ⟨first, rest, rfl, hfirst, hrest, rfl⟩

/-! ## The claims -/

/-- C1: in the Stage Builder `_make_layer`, for every block template, target
width `planes`, repeat count `n ≥ 1`, requested stride and dilate flag, a
projection shortcut (1x1 convolution + normalization) is attached to block
number 1 iff the effective stride (after any dilation substitution) differs
from 1 or the running input-channel count differs from `planes * expansion`;
and the running input-channel count after the stage equals
`planes * expansion`, so that is the channel count leaving every stage. -/
theorem C1_stage_shortcut_iff (t : BlockTemplate) (groups base_width : Nat)
    (s : BuilderState) (planes n stride : Nat) (dilate : Bool) (bs : List Block)
    (s' : BuilderState) (hn : 1 ≤ n)
    (h : make_layer t groups base_width s planes n stride dilate = Except.ok (bs, s')) :
    ∃ first rest, bs = first :: rest ∧
      first.downsample =
        (if (if dilate then 1 else stride) ≠ 1 ∨ s.inplanes ≠ planes * t.expansion then
          some { conv := conv1x1 s.inplanes (planes * t.expansion) (if dilate then 1 else stride)
                 norm := NormLayer.new (planes * t.expansion) }
        else none) ∧
      s'.inplanes = planes * t.expansion := by
  obtain ⟨first, rest, hbs, hfirst, hrest, hs'⟩ := make_layer_eq_ok h
  exact ⟨first, rest, hbs, BlockTemplate.init_downsample hfirst, by rw [hs']⟩

/-- A concrete stage built by `_make_layer` for the C1 witness: plain blocks,
width 64, two repeats, stride 1, entering with 64 channels and dilation 1. -/
def stage_demo1 : List Block × BuilderState :=
  match make_layer .basic 1 64 ⟨64, 1⟩ 64 2 1 false with
  | .ok r => r
  | .error _ => ([], ⟨0, 0⟩)

/-- Witness for C1 at the concrete stage `stage_demo1`. -/
theorem C1_stage_shortcut_iff_witness :
    ∃ first rest, stage_demo1.1 = first :: rest ∧
      first.downsample =
        (if (if false then 1 else 1) ≠ 1 ∨
            (⟨64, 1⟩ : BuilderState).inplanes ≠ 64 * BlockTemplate.basic.expansion then
          some { conv := conv1x1 (BuilderState.mk 64 1).inplanes
                   (64 * BlockTemplate.basic.expansion) (if false then 1 else 1)
                 norm := NormLayer.new (64 * BlockTemplate.basic.expansion) }
        else none) ∧
      stage_demo1.2.inplanes = 64 * BlockTemplate.basic.expansion :=
  C1_stage_shortcut_iff .basic 1 64 ⟨64, 1⟩ 64 2 1 false stage_demo1.1 stage_demo1.2
    (by decide) (by rfl)

/-- C2: in `_make_layer` with the dilate flag set, the running dilation is
multiplied by the requested stride and the effective stride becomes 1; block
number 1 is constructed with the effective stride 1 and the dilation held
before the inflation (`previous_dilation`), and every later block is
constructed with stride 1, no shortcut, and the inflated running dilation. -/
theorem C2_stage_dilate (t : BlockTemplate) (groups base_width : Nat)
    (s : BuilderState) (planes n stride : Nat) (bs : List Block) (s' : BuilderState)
    (h : make_layer t groups base_width s planes n stride true = Except.ok (bs, s')) :
    s'.dilation = s.dilation * stride ∧
    ∃ first rest, bs = first :: rest ∧
      t.init s.inplanes planes 1
        (if s.inplanes ≠ planes * t.expansion then
          some { conv := conv1x1 s.inplanes (planes * t.expansion) 1
                 norm := NormLayer.new (planes * t.expansion) }
        else none) groups base_width s.dilation = Except.ok first ∧
      rest.length = n - 1 ∧
      ∀ b ∈ rest,
        t.init (planes * t.expansion) planes 1 none groups base_width (s.dilation * stride)
          = Except.ok b ∧ b.downsample = none := by
  obtain ⟨first, rest, hbs, hfirst, hrest, hs'⟩ := make_layer_eq_ok h
  simp only [if_true, ne_eq, not_true_eq_false, false_or] at hfirst hrest
  refine ⟨by simp [hs'], first, rest, hbs, hfirst, identity_loop_length hrest, ?_⟩
  intro b hb
  have hinit := identity_loop_mem hrest b hb
  exact ⟨hinit, BlockTemplate.init_downsample hinit⟩

/-- A concrete dilated stage for the C2 witness: plain blocks, width 64, one
repeat, requested stride 2, dilate set, entering with 64 channels, dilation 1. -/
def stage_demo2 : List Block × BuilderState :=
  match make_layer .basic 1 64 ⟨64, 1⟩ 64 1 2 true with
  | .ok r => r
  | .error _ => ([], ⟨0, 0⟩)

/-- Witness for C2 at the concrete stage `stage_demo2`. -/
theorem C2_stage_dilate_witness :
    stage_demo2.2.dilation = (⟨64, 1⟩ : BuilderState).dilation * 2 ∧
    ∃ first rest, stage_demo2.1 = first :: rest ∧
      BlockTemplate.init .basic (BuilderState.mk 64 1).inplanes 64 1
        (if (BuilderState.mk 64 1).inplanes ≠ 64 * BlockTemplate.basic.expansion then
          some { conv := conv1x1 (BuilderState.mk 64 1).inplanes
                   (64 * BlockTemplate.basic.expansion) 1
                 norm := NormLayer.new (64 * BlockTemplate.basic.expansion) }
        else none) 1 64 (BuilderState.mk 64 1).dilation = Except.ok first ∧
      rest.length = 1 - 1 ∧
      ∀ b ∈ rest,
        BlockTemplate.init .basic (64 * BlockTemplate.basic.expansion) 64 1 none 1 64
          ((BuilderState.mk 64 1).dilation * 2) = Except.ok b ∧ b.downsample = none :=
  C2_stage_dilate .basic 1 64 ⟨64, 1⟩ 64 1 2 stage_demo2.1 stage_demo2.2 (by rfl)

/-- C4: constructing a plain residual block raises iff `groups ≠ 1` or
`base_width ≠ 64` or `dilation > 1`; under the complementary precondition the
construction succeeds. -/
theorem C4_basicblock_validation (inplanes planes stride : Nat) (ds : Option Downsample)
    (groups base_width dilation : Nat) :
    ((∃ e, BasicBlock.init inplanes planes stride ds groups base_width dilation =
        Except.error e) ↔ (groups ≠ 1 ∨ base_width ≠ 64 ∨ dilation > 1)) ∧
    ((groups = 1 ∧ base_width = 64 ∧ dilation ≤ 1) →
      ∃ b, BasicBlock.init inplanes planes stride ds groups base_width dilation =
        Except.ok b) := by
  constructor
  · constructor
    · rintro ⟨e, he⟩
      unfold BasicBlock.init at he
      split at he
      · rename_i h1
        rcases h1 with h1 | h1
        · exact Or.inl h1
        · exact Or.inr (Or.inl h1)
      · split at he
        · rename_i h2
          exact Or.inr (Or.inr h2)
        · cases he
    · intro hcond
      unfold BasicBlock.init
      by_cases h1 : groups ≠ 1 ∨ base_width ≠ 64
      · rw [if_pos h1]
        exact ⟨_, rfl⟩
      · rw [if_neg h1]
        push_neg at h1
        have h2 : dilation > 1 := by
          rcases hcond with h | h | h
          · exact absurd h1.1 h
          · exact absurd h1.2 h
          · exact h
        rw [if_pos h2]
        exact ⟨_, rfl⟩
  · rintro ⟨h1, h2, h3⟩
    subst h1; subst h2
    exact ⟨_, BasicBlock.init_ok inplanes planes stride ds h3⟩

/-- The float expression `int(planes * (base_width / 64.))`, read in exact
arithmetic, is the integer floor `planes * base_width / 64`. -/
theorem Bottleneck.width_eq (planes base_width groups : Nat) :
    Bottleneck.width planes base_width groups = planes * base_width / 64 * groups := by
  unfold Bottleneck.width
  have h : (planes : ℚ) * ((base_width : ℚ) / 64) =
      ((planes * base_width : ℕ) : ℚ) / ((64 : ℕ) : ℚ) := by
    push_cast
    ring
  rw [h, Nat.floor_div_eq_div]

/-- C5: for every Bottleneck block, the internal width of the 1x1-reduce and
3x3 stages equals `floor(planes * base_width / 64) * groups` in exact integer
arithmetic (the code's float division and `int` truncation agree with this
under the exact-arithmetic reading), and the 1x1-expand stage outputs exactly
`planes * 4` channels. -/
theorem C5_bottleneck_width (inplanes planes stride : Nat) (ds : Option Downsample)
    (groups base_width dilation : Nat)
    (hp : 1 ≤ planes) (hb : 1 ≤ base_width) (hg : 1 ≤ groups) :
    (Bottleneck.init inplanes planes stride ds groups base_width dilation).conv1.out_channels =
      planes * base_width / 64 * groups ∧
    (Bottleneck.init inplanes planes stride ds groups base_width dilation).conv2.in_channels =
      planes * base_width / 64 * groups ∧
    (Bottleneck.init inplanes planes stride ds groups base_width dilation).conv2.out_channels =
      planes * base_width / 64 * groups ∧
    (Bottleneck.init inplanes planes stride ds groups base_width dilation).conv3.out_channels =
      planes * 4 := by
  refine ⟨?_, ?_, ?_, rfl⟩ <;>
    simpa using Bottleneck.width_eq planes base_width groups

/-- Witness for C5 at `planes = 64`, `base_width = 64`, `groups = 1`. -/
theorem C5_bottleneck_width_witness :
    (Bottleneck.init 64 64 1 none 1 64 1).conv1.out_channels = 64 * 64 / 64 * 1 ∧
    (Bottleneck.init 64 64 1 none 1 64 1).conv2.in_channels = 64 * 64 / 64 * 1 ∧
    (Bottleneck.init 64 64 1 none 1 64 1).conv2.out_channels = 64 * 64 / 64 * 1 ∧
    (Bottleneck.init 64 64 1 none 1 64 1).conv3.out_channels = 64 * 4 :=
  C5_bottleneck_width 64 64 1 none 1 64 1 (by decide) (by decide) (by decide)

/-- C9: the Ghost module computes `intrinsic = ceil(oup / ratio)` primary
channels and `cheap = intrinsic * (ratio - 1)` channels from a grouped
convolution with one group per intrinsic channel; `intrinsic + cheap ≥ oup`
always holds, so the concatenation truncated to `oup` has exactly `oup`
channels. -/
theorem C9_ghost_channels (inp oup kernel_size ratio dw_size stride : Nat) (relu : Bool)
    (ho : 1 ≤ oup) (hr : 2 ≤ ratio) :
    (GhostModule.init inp oup kernel_size ratio dw_size stride relu).cheap_operation.groups =
      (GhostModule.init inp oup kernel_size ratio dw_size stride relu).primary_conv.out_channels ∧
    (GhostModule.init inp oup kernel_size ratio dw_size stride relu).cheap_operation.out_channels =
      (GhostModule.init inp oup kernel_size ratio dw_size stride relu).primary_conv.out_channels *
        (ratio - 1) ∧
    oup ≤
      (GhostModule.init inp oup kernel_size ratio dw_size stride relu).primary_conv.out_channels +
      (GhostModule.init inp oup kernel_size ratio dw_size stride relu).cheap_operation.out_channels ∧
    (GhostModule.init inp oup kernel_size ratio dw_size stride relu).forward_channels = oup := by
  have hrq : (0 : ℚ) < (ratio : ℚ) := by
    have : (0 : Nat) < ratio := by omega
    exact_mod_cast this
  set c : ℤ := ⌈(oup : ℚ) / (ratio : ℚ)⌉ with hc
  have hcnn : 0 ≤ c := Int.ceil_nonneg (by positivity)
  have hle : (oup : ℚ) ≤ (ratio : ℚ) * (c : ℚ) := by
    have h1 : (oup : ℚ) / (ratio : ℚ) ≤ (c : ℚ) := Int.le_ceil _
    calc (oup : ℚ) = (ratio : ℚ) * ((oup : ℚ) / (ratio : ℚ)) := by field_simp
      _ ≤ (ratio : ℚ) * (c : ℚ) := by
          exact mul_le_mul_of_nonneg_left h1 (le_of_lt hrq)
  have h5 : ((c.toNat : ℕ) : ℚ) = (c : ℚ) := by
    rw [← Int.cast_natCast (R := ℚ), Int.toNat_of_nonneg hcnn]
  have hsum : oup ≤ c.toNat * ratio := by
    have h2 : (oup : ℚ) ≤ ((c.toNat * ratio : ℕ) : ℚ) := by
      push_cast
      rw [h5, mul_comm]
      exact hle
    exact_mod_cast h2
  have hmul : c.toNat * ratio = c.toNat + c.toNat * (ratio - 1) := by
    cases ratio with
    | zero => omega
    | succ r => simp [Nat.succ_sub_one, Nat.mul_succ]; ring
  have hbound : oup ≤ c.toNat + c.toNat * (ratio - 1) := by omega
  refine ⟨rfl, rfl, hbound, ?_⟩
  unfold GhostModule.forward_channels
  exact min_eq_right hbound

/-- Witness for C9 at `oup = 7`, `ratio = 2`. -/
theorem C9_ghost_channels_witness :
    (GhostModule.init 3 7 1 2 3 1 true).cheap_operation.groups =
      (GhostModule.init 3 7 1 2 3 1 true).primary_conv.out_channels ∧
    (GhostModule.init 3 7 1 2 3 1 true).cheap_operation.out_channels =
      (GhostModule.init 3 7 1 2 3 1 true).primary_conv.out_channels * (2 - 1) ∧
    7 ≤ (GhostModule.init 3 7 1 2 3 1 true).primary_conv.out_channels +
      (GhostModule.init 3 7 1 2 3 1 true).cheap_operation.out_channels ∧
    (GhostModule.init 3 7 1 2 3 1 true).forward_channels = 7 :=
  C9_ghost_channels 3 7 1 2 3 1 true (by decide) (by decide)

/-! ## Freeze and unfreeze -/

/-- Setting an already-set trainability flag is the identity. -/
theorem Param.set_true_of_true {p : Param} (h : p.requires_grad = true) :
    Param.set_requires_grad true p = p := by
  cases p with
  | mk v rg => simp_all [Param.set_requires_grad]

theorem Conv2d.conv_unfreeze_id {c : Conv2d} (h : c.weight.requires_grad = true) :
    c.map_params (Param.set_requires_grad true) = c := by
  unfold Conv2d.map_params
  rw [Param.set_true_of_true h]

theorem NormLayer.norm_unfreeze_id {n : NormLayer} (hw : n.weight.requires_grad = true)
    (hb : n.bias.requires_grad = true) :
    n.map_params (Param.set_requires_grad true) = n := by
  unfold NormLayer.map_params
  rw [Param.set_true_of_true hw, Param.set_true_of_true hb]

theorem Downsample.downsample_unfreeze_id {d : Downsample} (h : ∀ p ∈ d.params, p.requires_grad = true) :
    d.map_params (Param.set_requires_grad true) = d := by
  unfold Downsample.map_params
  rw [Conv2d.conv_unfreeze_id (h _ (by simp [Downsample.params, Conv2d.params])),
      NormLayer.norm_unfreeze_id (h _ (by simp [Downsample.params, NormLayer.params]))
        (h _ (by simp [Downsample.params, NormLayer.params]))]

theorem BasicBlock.basic_unfreeze_id {b : BasicBlock} (h : ∀ p ∈ b.params, p.requires_grad = true) :
    b.map_params (Param.set_requires_grad true) = b := by
  unfold BasicBlock.map_params
  rw [Conv2d.conv_unfreeze_id (h _ (by simp [BasicBlock.params, Conv2d.params])),
      Conv2d.conv_unfreeze_id (h _ (by simp [BasicBlock.params, Conv2d.params])),
      NormLayer.norm_unfreeze_id (h _ (by simp [BasicBlock.params, NormLayer.params]))
        (h _ (by simp [BasicBlock.params, NormLayer.params])),
      NormLayer.norm_unfreeze_id (h _ (by simp [BasicBlock.params, NormLayer.params]))
        (h _ (by simp [BasicBlock.params, NormLayer.params]))]
  have hd : Option.map (Downsample.map_params (Param.set_requires_grad true)) b.downsample =
      b.downsample := by
    cases hds : b.downsample with
    | none => rfl
    | some d =>
      have hdd := Downsample.downsample_unfreeze_id (d := d)
        (fun p hp => h p (by simp [BasicBlock.params, hds, hp]))
      simp [hdd]
  rw [hd]

theorem Bottleneck.bottleneck_unfreeze_id {b : Bottleneck} (h : ∀ p ∈ b.params, p.requires_grad = true) :
    b.map_params (Param.set_requires_grad true) = b := by
  unfold Bottleneck.map_params
  rw [Conv2d.conv_unfreeze_id (h _ (by simp [Bottleneck.params, Conv2d.params])),
      Conv2d.conv_unfreeze_id (h _ (by simp [Bottleneck.params, Conv2d.params])),
      Conv2d.conv_unfreeze_id (h _ (by simp [Bottleneck.params, Conv2d.params])),
      NormLayer.norm_unfreeze_id (h _ (by simp [Bottleneck.params, NormLayer.params]))
        (h _ (by simp [Bottleneck.params, NormLayer.params])),
      NormLayer.norm_unfreeze_id (h _ (by simp [Bottleneck.params, NormLayer.params]))
        (h _ (by simp [Bottleneck.params, NormLayer.params])),
      NormLayer.norm_unfreeze_id (h _ (by simp [Bottleneck.params, NormLayer.params]))
        (h _ (by simp [Bottleneck.params, NormLayer.params]))]
  have hd : Option.map (Downsample.map_params (Param.set_requires_grad true)) b.downsample =
      b.downsample := by
    cases hds : b.downsample with
    | none => rfl
    | some d =>
      have hdd := Downsample.downsample_unfreeze_id (d := d)
        (fun p hp => h p (by simp [Bottleneck.params, hds, hp]))
      simp [hdd]
  rw [hd]

theorem Block.block_unfreeze_id {b : Block} (h : ∀ p ∈ b.params, p.requires_grad = true) :
    b.map_params (Param.set_requires_grad true) = b := by
  cases b with
  | basic bb => simp only [Block.map_params]; rw [BasicBlock.basic_unfreeze_id h]
  | bottleneck bb => simp only [Block.map_params]; rw [Bottleneck.bottleneck_unfreeze_id h]

theorem blocks_unfreeze_id {l : List Block}
    (h : ∀ b ∈ l, ∀ p ∈ b.params, p.requires_grad = true) :
    l.map (Block.map_params (Param.set_requires_grad true)) = l := by
  induction l with
  | nil => rfl
  | cons b l ih =>
    simp only [List.map_cons]
    rw [Block.block_unfreeze_id (h b (by simp)), ih (fun b' hb' => h b' (by simp [hb']))]

/-- `Unfreeze_backbone` after `freeze_backbone` just sets every backbone
flag to true. -/
theorem ResNet.unfreeze_freeze_eq_set_true (m : ResNet) :
    (m.freeze_backbone).Unfreeze_backbone = m.set_backbone_grad true := by
  unfold ResNet.freeze_backbone ResNet.Unfreeze_backbone ResNet.set_backbone_grad
  have hblk : ∀ blk : Block,
      Block.map_params (Param.set_requires_grad true)
        (Block.map_params (Param.set_requires_grad false) blk) =
      Block.map_params (Param.set_requires_grad true) blk := by
    intro blk
    cases blk with
    | basic bb =>
      cases bb with
      | mk c1 n1 c2 n2 ds st => cases ds <;> rfl
    | bottleneck bb =>
      cases bb with
      | mk c1 n1 c2 n2 c3 n3 ds st => cases ds <;> rfl
  simp only [List.map_map, Function.comp_def, hblk]
  rfl

/-- Setting all backbone flags to true is the identity when they already all
are. -/
theorem ResNet.set_true_id {m : ResNet}
    (h : ∀ p ∈ m.backbone_params, p.requires_grad = true) :
    m.set_backbone_grad true = m := by
  have hconv : m.conv1.weight.requires_grad = true := by
    refine h _ ?_
    simp [ResNet.backbone_params, Conv2d.params]
  have hbnw : m.bn1.weight.requires_grad = true := by
    refine h _ ?_
    simp [ResNet.backbone_params, NormLayer.params]
  have hbnb : m.bn1.bias.requires_grad = true := by
    refine h _ ?_
    simp [ResNet.backbone_params, NormLayer.params]
  have hall : ∀ b ∈ m.layer1 ++ m.layer2 ++ m.layer3 ++ m.layer4,
      ∀ p ∈ b.params, p.requires_grad = true := by
    intro b hb p hp
    refine h p ?_
    simp only [ResNet.backbone_params, List.mem_append, List.mem_flatten, List.mem_map]
    refine Or.inr ⟨b.params, ⟨b, ?_, rfl⟩, hp⟩
    simp only [List.mem_append] at hb ⊢
    tauto
  unfold ResNet.set_backbone_grad
  rw [Conv2d.conv_unfreeze_id hconv, NormLayer.norm_unfreeze_id hbnw hbnb,
      blocks_unfreeze_id (fun b hb => hall b (by simp [hb])),
      blocks_unfreeze_id (fun b hb => hall b (by simp [hb])),
      blocks_unfreeze_id (fun b hb => hall b (by simp [hb])),
      blocks_unfreeze_id (fun b hb => hall b (by simp [hb]))]

/-- `params` commutes with `map_params` on each module shape. -/
theorem BasicBlock.basic_params_map (f : Param → Param) (b : BasicBlock) :
    (b.map_params f).params = b.params.map f := by
  cases hds : b.downsample with
  | none =>
    simp [BasicBlock.params, BasicBlock.map_params, hds, Conv2d.params, NormLayer.params,
      Conv2d.map_params, NormLayer.map_params]
  | some d =>
    simp [BasicBlock.params, BasicBlock.map_params, hds, Conv2d.params, NormLayer.params,
      Conv2d.map_params, NormLayer.map_params, Downsample.params, Downsample.map_params]

theorem Bottleneck.bottleneck_params_map (f : Param → Param) (b : Bottleneck) :
    (b.map_params f).params = b.params.map f := by
  cases hds : b.downsample with
  | none =>
    simp [Bottleneck.params, Bottleneck.map_params, hds, Conv2d.params, NormLayer.params,
      Conv2d.map_params, NormLayer.map_params]
  | some d =>
    simp [Bottleneck.params, Bottleneck.map_params, hds, Conv2d.params, NormLayer.params,
      Conv2d.map_params, NormLayer.map_params, Downsample.params, Downsample.map_params]

theorem Block.block_params_map (f : Param → Param) (b : Block) :
    (b.map_params f).params = b.params.map f := by
  cases b with
  | basic bb => simp [Block.map_params, Block.params, BasicBlock.basic_params_map]
  | bottleneck bb => simp [Block.map_params, Block.params, Bottleneck.bottleneck_params_map]

/-- The backbone parameter list of a grad-toggled network is the toggled
parameter list. -/
theorem ResNet.backbone_params_set (b : Bool) (m : ResNet) :
    (m.set_backbone_grad b).backbone_params =
      m.backbone_params.map (Param.set_requires_grad b) := by
  unfold ResNet.set_backbone_grad ResNet.backbone_params
  simp [Conv2d.params, NormLayer.params, Conv2d.map_params, NormLayer.map_params,
    List.map_map, Function.comp_def, Block.block_params_map, List.map_flatten]

/-- The default `resnet18()` model; the fallback branch is never taken (see
`resnet18_model_spec`). -/
def resnet18_model : ResNet :=
  match resnet18 1000 with
  | .ok m => m
  | .error _ =>
      { block := .basic, groups := 1, base_width := 64, conv1 := Conv2d.new 3 64 7 2 3 1 1,
        bn1 := NormLayer.new 64, layer1 := [], layer2 := [], layer3 := [], layer4 := [],
        fc := Linear.new 512 1000 }

theorem resnet18_model_spec : resnet18 1000 = Except.ok resnet18_model := rfl

/-- A constructed network whose stem convolution weight was marked
untrainable before any freeze call: one of the "initial assignments of
per-parameter trainability flags" C3 quantifies over. -/
def pre_frozen_model : ResNet :=
  { resnet18_model with
      conv1 := resnet18_model.conv1.map_params (Param.set_requires_grad false) }

/-- Counterexample to C3 as stated: on a constructed network whose stem
convolution flag is initially false, freeze followed by Unfreeze does not
restore that backbone flag (it forces it to true). -/
theorem C3_counterexample :
    ((pre_frozen_model.freeze_backbone).Unfreeze_backbone).conv1.weight.requires_grad ≠
      pre_frozen_model.conv1.weight.requires_grad := by
  decide

/-- C3 (amended): freezing the backbone never touches the classifier head
`fc`; freeze followed by Unfreeze sets every backbone trainability flag to
true, hence restores the pre-freeze state exactly when every backbone flag
was true before the freeze (as holds immediately after construction); with
an arbitrary initial assignment the flags are not restored in general. -/
theorem C3_freeze_unfreeze_amended (m : ResNet) :
    (m.freeze_backbone).fc = m.fc ∧
    ((m.freeze_backbone).Unfreeze_backbone).fc = m.fc ∧
    (∀ p ∈ ((m.freeze_backbone).Unfreeze_backbone).backbone_params,
      p.requires_grad = true) ∧
    ((∀ p ∈ m.backbone_params, p.requires_grad = true) →
      (m.freeze_backbone).Unfreeze_backbone = m) := by
  refine ⟨rfl, rfl, ?_, ?_⟩
  · rw [ResNet.unfreeze_freeze_eq_set_true, ResNet.backbone_params_set]
    intro p hp
    rcases List.mem_map.mp hp with ⟨q, _, hq⟩
    rw [← hq]
    rfl
  · intro h
    rw [ResNet.unfreeze_freeze_eq_set_true, ResNet.set_true_id h]

/-- Witness for the amended C3 at the freshly constructed `resnet18()`
model, whose flags are all true. -/
theorem C3_freeze_unfreeze_amended_witness :
    ((resnet18_model.freeze_backbone).Unfreeze_backbone) = resnet18_model :=
  (C3_freeze_unfreeze_amended resnet18_model).2.2.2 (by decide)

/-! ## Inversion of the network constructor, and error provenance -/

/-- Inversion for a successful `ResNet.__init__`: the dilate configuration has
three entries, the four stages were built in sequence threading the running
state, and the result is the initialised (and possibly zero-init-residual
patched) assembly. -/
theorem ResNet.init_eq_ok {block : BlockTemplate} {layers : Nat × Nat × Nat × Nat}
    {num_classes : Nat} {zero_init_residual : Bool} {groups width_per_group : Nat}
    {rswd0 : Option (List Bool)} {m : ResNet}
    (h : ResNet.init block layers num_classes zero_init_residual groups width_per_group
      rswd0 = Except.ok m) :
    ∃ (d2 d3 d4 : Bool) (l1 l2 l3 l4 : List Block) (s1 s2 s3 s4 : BuilderState),
      rswd0.getD [false, false, false] = [d2, d3, d4] ∧
      make_layer block groups width_per_group ⟨64, 1⟩ 64 layers.1 1 false =
        Except.ok (l1, s1) ∧
      make_layer block groups width_per_group s1 128 layers.2.1 2 d2 = Except.ok (l2, s2) ∧
      make_layer block groups width_per_group s2 256 layers.2.2.1 2 d3 = Except.ok (l3, s3) ∧
      make_layer block groups width_per_group s3 512 layers.2.2.2 2 d4 = Except.ok (l4, s4) ∧
      m = (let base : ResNet :=
              { block := block, groups := groups, base_width := width_per_group,
                conv1 := Conv2d.new 3 64 7 2 3 1 1, bn1 := NormLayer.new 64,
                layer1 := l1, layer2 := l2, layer3 := l3, layer4 := l4,
                fc := Linear.new (512 * block.expansion) num_classes }
            if zero_init_residual then base.init_weights.zero_init
            else base.init_weights) := by
  unfold ResNet.init at h
  rcases hgen : rswd0.getD [false, false, false] with _ | ⟨d2, _ | ⟨d3, _ | ⟨d4, _ | _⟩⟩⟩ <;>
    rw [hgen] at h <;> simp only [List.length] at h <;>
    first
    | (rw [if_pos (by omega)] at h; cases h)
    | skip
  rw [if_neg (by omega)] at h
  split at h
  · cases h
  · rename_i l1 s1 hm1
    split at h
    · cases h
    · rename_i l2 s2 hm2
      split at h
      · cases h
      · rename_i l3 s3 hm3
        split at h
        · cases h
        · rename_i l4 s4 hm4
          cases h
          exact ⟨d2, d3, d4, l1, l2, l3, l4, s1, s2, s3, s4, rfl,
            hm1, hm2, hm3, hm4, rfl⟩

/-- An error raised inside the identity loop comes from the identity-block
constructor call. -/
theorem identity_loop_error_src {t : BlockTemplate}
    {inplanes planes groups base_width dilation : Nat} {k : Nat} {e : String}
    (h : identity_loop t inplanes planes groups base_width dilation k = Except.error e) :
    t.init inplanes planes 1 none groups base_width dilation = Except.error e := by
  induction k with
  | zero => cases h
  | succ k ih =>
    unfold identity_loop at h
    split at h
    · rename_i he
      cases h
      exact he
    · split at h
      · rename_i he
        cases h
        exact ih he
      · cases h

/-- An error raised by `_make_layer` comes from some block-constructor call. -/
theorem make_layer_error_src {t : BlockTemplate} {groups base_width : Nat} {s : BuilderState}
    {planes n stride : Nat} {dilate : Bool} {e : String}
    (h : make_layer t groups base_width s planes n stride dilate = Except.error e) :
    ∃ inplanes planes' stride' ds dilation,
      t.init inplanes planes' stride' ds groups base_width dilation = Except.error e := by
  cases dilate <;>
  · unfold make_layer at h
    simp only [Bool.false_eq_true, if_false, if_true] at h
    split at h
    · rename_i he
      cases h
      exact ⟨_, _, _, _, _, he⟩
    · split at h
      · rename_i he
        cases h
        exact ⟨_, _, _, _, _, identity_loop_error_src he⟩
      · cases h

/-- `_make_layer` can only raise the two `BasicBlock` messages. -/
theorem make_layer_error_msg {t : BlockTemplate} {groups base_width : Nat} {s : BuilderState}
    {planes n stride : Nat} {dilate : Bool} {e : String}
    (h : make_layer t groups base_width s planes n stride dilate = Except.error e) :
    e = basic_groups_msg ∨ e = basic_dilation_msg := by
  obtain ⟨_, _, _, _, _, he⟩ := make_layer_error_src h
  exact BlockTemplate.init_error_msg he

/-- Counterexample to C7 as stated: with the plain-block template and a
three-entry dilate configuration `[True, False, False]` the construction
still fails (with the `BasicBlock` dilation error), so "fails exactly when
the configuration does not have three entries" is refuted left-to-right. -/
theorem C7_counterexample :
    ResNet.init .basic (2, 2, 2, 2) 1000 false 1 64 (some [true, false, false]) =
      Except.error basic_dilation_msg ∧
    ([true, false, false] : List Bool).length = 3 := by
  constructor
  · rfl
  · rfl

/-- C7 (amended): construction fails with the wrong-count ValueError exactly
when the supplied dilate-flag configuration does not have exactly three
entries; this check runs before any stage is built (it takes precedence over
every stage error, which would carry a block-constructor message instead). -/
theorem C7_dilate_flag_validation (block : BlockTemplate) (layers : Nat × Nat × Nat × Nat)
    (num_classes : Nat) (zero_init_residual : Bool) (groups width_per_group : Nat)
    (rswd0 : Option (List Bool)) :
    ResNet.init block layers num_classes zero_init_residual groups width_per_group rswd0 =
        Except.error rswd_msg ↔
      ∃ l, rswd0 = some l ∧ l.length ≠ 3 := by
  constructor
  · intro h
    rcases hg : rswd0.getD [false, false, false] with _ | ⟨a, _ | ⟨b, _ | ⟨c, _ | ⟨d, tl⟩⟩⟩⟩
    case mp.nil | mp.cons.nil | mp.cons.cons.nil | mp.cons.cons.cons.cons =>
      -- fewer or more than three entries in the effective configuration:
      -- only a supplied list can cause that, and it then has the wrong length
      cases hopt : rswd0 with
      | none =>
        rw [hopt] at hg
        simp at hg
      | some l =>
        refine ⟨l, rfl, ?_⟩
        rw [hopt, Option.getD_some] at hg
        subst hg
        simp
    case mp.cons.cons.cons.nil =>
      -- three entries: the length check passes, so the error is a stage error,
      -- whose message is a block message, never the ValueError text
      exfalso
      unfold ResNet.init at h
      rw [hg] at h
      simp only [List.length] at h
      rw [if_neg (by omega)] at h
      split at h
      · rename_i he
        cases h
        rcases make_layer_error_msg he with h' | h' <;> revert h' <;> decide
      · rename_i l1 s1 hm1
        split at h
        · rename_i he
          cases h
          rcases make_layer_error_msg he with h' | h' <;> revert h' <;> decide
        · rename_i l2 s2 hm2
          split at h
          · rename_i he
            cases h
            rcases make_layer_error_msg he with h' | h' <;> revert h' <;> decide
          · rename_i l3 s3 hm3
            split at h
            · rename_i he
              cases h
              rcases make_layer_error_msg he with h' | h' <;> revert h' <;> decide
            · rename_i l4 s4 hm4
              cases h
  · rintro ⟨l, rfl, hlen⟩
    simp [ResNet.init, hlen]

/-! ## Normalization scales and the zero-init-residual pass (C6) -/

/-- `norms` commutes with `map_norms` on each module shape. -/
theorem BasicBlock.basic_norms_map (f : NormLayer → NormLayer) (b : BasicBlock) :
    (b.map_norms f).norms = b.norms.map f := by
  cases hds : b.downsample with
  | none => simp [BasicBlock.norms, BasicBlock.map_norms, hds]
  | some d => simp [BasicBlock.norms, BasicBlock.map_norms, hds, Downsample.map_norms]

theorem Bottleneck.bottleneck_norms_map (f : NormLayer → NormLayer) (b : Bottleneck) :
    (b.map_norms f).norms = b.norms.map f := by
  cases hds : b.downsample with
  | none => simp [Bottleneck.norms, Bottleneck.map_norms, hds]
  | some d => simp [Bottleneck.norms, Bottleneck.map_norms, hds, Downsample.map_norms]

theorem Block.block_norms_map (f : NormLayer → NormLayer) (b : Block) :
    (b.map_norms f).norms = b.norms.map f := by
  cases b with
  | basic bb => simp [Block.map_norms, Block.norms, BasicBlock.basic_norms_map]
  | bottleneck bb => simp [Block.map_norms, Block.norms, Bottleneck.bottleneck_norms_map]

theorem ResNet.resnet_norms_map (f : NormLayer → NormLayer) (m : ResNet) :
    (m.map_norms f).norms = m.norms.map f := by
  unfold ResNet.map_norms ResNet.norms
  simp [List.map_map, Function.comp_def, Block.block_norms_map, List.map_flatten,
    List.map_append]

/-- After the initialization pass, every normalization layer has scale 1 and
shift 0. -/
theorem ResNet.init_weights_norms (m0 : ResNet) :
    ∀ nl ∈ (m0.init_weights).norms, nl.weight.value = 1 ∧ nl.bias.value = 0 := by
  intro nl hnl
  rw [ResNet.init_weights, ResNet.resnet_norms_map] at hnl
  rcases List.mem_map.mp hnl with ⟨x, _, hx⟩
  rw [← hx]
  exact ⟨rfl, rfl⟩

/-- Whatever block the zero pass turned into a bottleneck has a zeroed last
normalization scale. -/
theorem Block.zero_init_bn3_bottleneck {b : Block} {bb : Bottleneck}
    (h : Block.zero_init_bn3 b = Block.bottleneck bb) : bb.bn3.weight.value = 0 := by
  cases b with
  | basic x => cases h
  | bottleneck x =>
    injection h with h
    rw [← h]

/-- The zero pass is the identity on a list of plain blocks. -/
theorem zero_map_basic {l : List Block} (h : ∀ b ∈ l, ∃ x, b = Block.basic x) :
    l.map Block.zero_init_bn3 = l := by
  induction l with
  | nil => rfl
  | cons b tl ih =>
    obtain ⟨x, rfl⟩ := h b (by simp)
    simp only [List.map_cons]
    rw [ih (fun b' hb' => h b' (by simp [hb']))]
    rfl

/-- The zero pass is the identity on a network all of whose blocks are plain. -/
theorem ResNet.zero_init_basic {m0 : ResNet}
    (h : ∀ b ∈ m0.layer1 ++ m0.layer2 ++ m0.layer3 ++ m0.layer4, ∃ x, b = Block.basic x) :
    m0.zero_init = m0 := by
  unfold ResNet.zero_init
  rw [zero_map_basic (fun b hb => h b (by simp [hb])),
      zero_map_basic (fun b hb => h b (by simp [hb])),
      zero_map_basic (fun b hb => h b (by simp [hb])),
      zero_map_basic (fun b hb => h b (by simp [hb]))]

/-- A stage built from the plain-block template holds only plain blocks. -/
theorem make_layer_basic_blocks {groups base_width : Nat} {s : BuilderState}
    {planes n stride : Nat} {dilate : Bool} {bs : List Block} {s' : BuilderState}
    (h : make_layer .basic groups base_width s planes n stride dilate =
      Except.ok (bs, s')) :
    ∀ b ∈ bs, ∃ x, b = Block.basic x := by
  obtain ⟨first, rest, hbs, hfirst, hrest, -⟩ := make_layer_eq_ok h
  subst hbs
  intro b hb
  rcases List.mem_cons.mp hb with rfl | hmem
  · exact BlockTemplate.init_basic_shape hfirst
  · exact BlockTemplate.init_basic_shape (identity_loop_mem hrest b hmem)

/-- `map_norms` preserves plain-ness of a block. -/
theorem Block.map_norms_basic {b : Block} (f : NormLayer → NormLayer)
    (h : ∃ x, b = Block.basic x) : ∃ y, Block.map_norms f b = Block.basic y := by
  obtain ⟨x, rfl⟩ := h
  exact ⟨_, rfl⟩

/-- C6: immediately after a successful construction with zero-init-residual
enabled, the last normalization scale (`bn3` weight) of every Bottleneck
block is exactly 0; with it disabled, or for networks built from the plain
`BasicBlock` template, every normalization scale equals 1 (the plain block's
second normalization is never zeroed). -/
theorem C6_zero_init_residual (block : BlockTemplate) (layers : Nat × Nat × Nat × Nat)
    (num_classes : Nat) (zir : Bool) (groups width_per_group : Nat)
    (rswd0 : Option (List Bool)) (m : ResNet)
    (h : ResNet.init block layers num_classes zir groups width_per_group rswd0 =
      Except.ok m) :
    (zir = true → ∀ b ∈ m.layer1 ++ m.layer2 ++ m.layer3 ++ m.layer4,
      ∀ bb, b = Block.bottleneck bb → bb.bn3.weight.value = 0) ∧
    (zir = false → ∀ nl ∈ m.norms, nl.weight.value = 1) ∧
    (block = BlockTemplate.basic → ∀ nl ∈ m.norms, nl.weight.value = 1) := by
  obtain ⟨d2, d3, d4, l1, l2, l3, l4, s1, s2, s3, s4, hgen, h1, h2, h3, h4, hm⟩ :=
    ResNet.init_eq_ok h
  simp only at hm
  refine ⟨?_, ?_, ?_⟩
  · rintro rfl b hb bb rfl
    rw [if_pos rfl] at hm
    subst hm
    simp only [ResNet.zero_init, ← List.map_append] at hb
    rcases List.mem_map.mp hb with ⟨b0, _, hb0⟩
    exact Block.zero_init_bn3_bottleneck hb0
  · rintro rfl
    rw [if_neg (by simp)] at hm
    subst hm
    intro nl hnl
    exact (ResNet.init_weights_norms _ nl hnl).1
  · rintro rfl
    have hbasic : ∀ b ∈ l1 ++ l2 ++ l3 ++ l4, ∃ x, b = Block.basic x := by
      intro b hb
      simp only [List.mem_append] at hb
      rcases hb with ((hb | hb) | hb) | hb
      · exact make_layer_basic_blocks h1 b hb
      · exact make_layer_basic_blocks h2 b hb
      · exact make_layer_basic_blocks h3 b hb
      · exact make_layer_basic_blocks h4 b hb
    cases zir with
    | false =>
      rw [if_neg (by simp)] at hm
      subst hm
      intro nl hnl
      exact (ResNet.init_weights_norms _ nl hnl).1
    | true =>
      rw [if_pos rfl] at hm
      rw [ResNet.zero_init_basic ?hb] at hm
      case hb =>
        intro b hb
        simp only [ResNet.init_weights, ResNet.map_norms, ← List.map_append,
          List.mem_map] at hb
        obtain ⟨b0, hb0, rfl⟩ := hb
        exact Block.map_norms_basic _ (hbasic b0 (by simpa using hb0))
      subst hm
      intro nl hnl
      exact (ResNet.init_weights_norms _ nl hnl).1

/-- Witness for C6 at the concrete `resnet18()` construction (plain blocks,
zero-init-residual disabled). -/
theorem C6_zero_init_residual_witness :
    (false = true → ∀ b ∈ resnet18_model.layer1 ++ resnet18_model.layer2 ++
        resnet18_model.layer3 ++ resnet18_model.layer4,
      ∀ bb, b = Block.bottleneck bb → bb.bn3.weight.value = 0) ∧
    (false = false → ∀ nl ∈ resnet18_model.norms, nl.weight.value = 1) ∧
    (BlockTemplate.basic = BlockTemplate.basic →
      ∀ nl ∈ resnet18_model.norms, nl.weight.value = 1) :=
  C6_zero_init_residual .basic (2, 2, 2, 2) 1000 false 1 64 none resnet18_model (by rfl)

/-! ## Plain-block stages under dilation (C10) -/

/-- Building a plain block through the template with the supported
configuration. -/
theorem BlockTemplate.basic_init_ok (inplanes planes stride : Nat) (ds : Option Downsample)
    {dilation : Nat} (hd : dilation ≤ 1) :
    BlockTemplate.init .basic inplanes planes stride ds 1 64 dilation = Except.ok
      (Block.basic
        { conv1 := conv3x3 inplanes planes stride, bn1 := NormLayer.new planes,
          conv2 := conv3x3 planes planes, bn2 := NormLayer.new planes,
          downsample := ds, stride := stride }) := by
  unfold BlockTemplate.init
  rw [BasicBlock.init_ok inplanes planes stride ds hd]
  rfl

theorem BlockTemplate.basic_init_error (inplanes planes stride : Nat)
    (ds : Option Downsample) {dilation : Nat} (hd : 1 < dilation) :
    BlockTemplate.init .basic inplanes planes stride ds 1 64 dilation =
      Except.error basic_dilation_msg := by
  unfold BlockTemplate.init
  rw [BasicBlock.init_dilation_error inplanes planes stride ds hd]
  rfl

/-- A plain stage whose incoming and resulting dilations stay at most 1
builds successfully, ending at `planes * expansion` channels. -/
theorem make_layer_basic_ok (s : BuilderState) (planes n stride : Nat) (dilate : Bool)
    (hd : s.dilation ≤ 1)
    (hd2 : (if dilate then s.dilation * stride else s.dilation) ≤ 1) :
    ∃ bs, make_layer .basic 1 64 s planes n stride dilate =
      Except.ok (bs, ⟨planes * BlockTemplate.basic.expansion,
        if dilate then s.dilation * stride else s.dilation⟩) := by
  cases dilate with
  | false =>
    simp only [Bool.false_eq_true, if_false] at hd2 ⊢
    unfold make_layer
    simp only [Bool.false_eq_true, if_false]
    rw [BlockTemplate.basic_init_ok _ _ _ _ hd,
        identity_loop_of_ok (BlockTemplate.basic_init_ok _ _ _ _ hd2) (n - 1)]
    exact ⟨_, rfl⟩
  | true =>
    simp only [if_true] at hd2 ⊢
    unfold make_layer
    simp only [if_true]
    rw [BlockTemplate.basic_init_ok _ _ _ _ hd,
        identity_loop_of_ok (BlockTemplate.basic_init_ok _ _ _ _ hd2) (n - 1)]
    exact ⟨_, rfl⟩

/-- A plain dilated stage with a single block builds successfully even though
the running dilation is inflated: no later block consumes it. -/
theorem make_layer_basic_single (s : BuilderState) (planes stride : Nat) {n : Nat}
    (hd : s.dilation ≤ 1) (hn : n ≤ 1) :
    ∃ bs, make_layer .basic 1 64 s planes n stride true =
      Except.ok (bs, ⟨planes * BlockTemplate.basic.expansion, s.dilation * stride⟩) := by
  unfold make_layer
  simp only [if_true]
  rw [BlockTemplate.basic_init_ok _ _ _ _ hd]
  have hn0 : n - 1 = 0 := by omega
  rw [hn0]
  exact ⟨_, rfl⟩

/-- A plain dilated stage with at least two blocks raises the dilation
error: blocks two onward receive the inflated dilation. -/
theorem make_layer_basic_dilate_error (s : BuilderState) (planes n stride : Nat)
    (hd : s.dilation ≤ 1) (hd2 : 1 < s.dilation * stride) (hn : 2 ≤ n) :
    make_layer .basic 1 64 s planes n stride true = Except.error basic_dilation_msg := by
  unfold make_layer
  simp only [if_true]
  rw [BlockTemplate.basic_init_ok _ _ _ _ hd,
      identity_loop_of_error (BlockTemplate.basic_init_error _ _ _ _ hd2) (by omega)]

/-- A plain stage entered with an already-inflated dilation raises the
dilation error at its very first block (`previous_dilation > 1`). -/
theorem make_layer_basic_prev_error (s : BuilderState) (planes n stride : Nat)
    (dilate : Bool) (hd : 1 < s.dilation) :
    make_layer .basic 1 64 s planes n stride dilate = Except.error basic_dilation_msg := by
  cases dilate <;>
  · unfold make_layer
    simp only [Bool.false_eq_true, if_false, if_true]
    rw [BlockTemplate.basic_init_error _ _ _ _ hd]

/-- C10: constructing a network from the plain-block template with a dilate
flag set raises the `BasicBlock` dilation error whenever the dilated stage
has repeat count at least 2 or any stage follows it — that is, whenever the
flag is for stage 2 or stage 3, or it is for stage 4 and that stage repeats.
In particular all five preset repeat configurations fail with any flag set. -/
theorem C10_basic_dilate_fails (l1 l2 l3 l4 : Nat) (d2 d3 d4 : Bool)
    (num_classes : Nat) (zir : Bool)
    (h : d2 = true ∨ d3 = true ∨ (d4 = true ∧ 2 ≤ l4)) :
    ResNet.init .basic (l1, l2, l3, l4) num_classes zir 1 64 (some [d2, d3, d4]) =
      Except.error basic_dilation_msg := by
  obtain ⟨bs1, h1⟩ := make_layer_basic_ok ⟨64, 1⟩ 64 l1 1 false (by norm_num) (by norm_num)
  unfold ResNet.init
  rw [Option.getD_some, if_neg (by simp)]
  simp only [h1]
  norm_num [BlockTemplate.expansion, BasicBlock.expansion]
  cases d2 with
  | true =>
    rcases le_or_lt l2 1 with hl2 | hl2
    · obtain ⟨bs2, h2⟩ := make_layer_basic_single ⟨64, 1⟩ 128 2 (by norm_num) hl2
      simp only [h2]
      norm_num [BlockTemplate.expansion, BasicBlock.expansion]
      rw [make_layer_basic_prev_error ⟨128, 2⟩ 256 l3 2 d3 (by norm_num)]
    · rw [make_layer_basic_dilate_error ⟨64, 1⟩ 128 l2 2 (by norm_num) (by norm_num)
        (by omega)]
  | false =>
    obtain ⟨bs2, h2⟩ := make_layer_basic_ok ⟨64, 1⟩ 128 l2 2 false (by norm_num) (by norm_num)
    simp only [h2]
    norm_num [BlockTemplate.expansion, BasicBlock.expansion]
    cases d3 with
    | true =>
      rcases le_or_lt l3 1 with hl3 | hl3
      · obtain ⟨bs3, h3⟩ := make_layer_basic_single ⟨128, 1⟩ 256 2 (by norm_num) hl3
        simp only [h3]
        norm_num [BlockTemplate.expansion, BasicBlock.expansion]
        rw [make_layer_basic_prev_error ⟨256, 2⟩ 512 l4 2 d4 (by norm_num)]
      · rw [make_layer_basic_dilate_error ⟨128, 1⟩ 256 l3 2 (by norm_num) (by norm_num)
          (by omega)]
    | false =>
      obtain ⟨hd4, hl4⟩ : d4 = true ∧ 2 ≤ l4 := by
        rcases h with h | h | h
        · cases h
        · cases h
        · exact h
      subst hd4
      obtain ⟨bs3, h3⟩ := make_layer_basic_ok ⟨128, 1⟩ 256 l3 2 false (by norm_num)
        (by norm_num)
      simp only [h3]
      norm_num [BlockTemplate.expansion, BasicBlock.expansion]
      rw [make_layer_basic_dilate_error ⟨256, 1⟩ 512 l4 2 (by norm_num) (by norm_num) hl4]

/-- Witness for C10 at the `resnet18` repeat configuration `[2, 2, 2, 2]`
with the first dilate flag set. -/
theorem C10_basic_dilate_fails_witness :
    ResNet.init .basic (2, 2, 2, 2) 1000 false 1 64 (some [true, false, false]) =
      Except.error basic_dilation_msg :=
  C10_basic_dilate_fails 2 2 2 2 true false false 1000 false (Or.inl rfl)

/-! ## The five presets and head replacement (C8) -/

/-- Template call on the bottleneck template never fails. -/
theorem BlockTemplate.bottleneck_init_ok (inplanes planes stride : Nat)
    (ds : Option Downsample) (groups base_width dilation : Nat) :
    BlockTemplate.init .bottleneck inplanes planes stride ds groups base_width dilation =
      Except.ok (Block.bottleneck
        (Bottleneck.init inplanes planes stride ds groups base_width dilation)) := rfl

/-- A bottleneck stage never fails to build. -/
theorem make_layer_bottleneck_ok (groups base_width : Nat) (s : BuilderState)
    (planes n stride : Nat) (dilate : Bool) :
    ∃ r, make_layer .bottleneck groups base_width s planes n stride dilate =
      Except.ok r := by
  cases dilate <;>
  · unfold make_layer
    simp only [Bool.false_eq_true, if_false, if_true]
    rw [BlockTemplate.bottleneck_init_ok,
        identity_loop_of_ok (BlockTemplate.bottleneck_init_ok _ _ _ _ _ _ _) (n - 1)]
    exact ⟨_, rfl⟩

/-- A bottleneck network with the default dilate configuration always
constructs. -/
theorem ResNet.init_bottleneck_ok (layers : Nat × Nat × Nat × Nat) (num_classes : Nat)
    (zir : Bool) (groups width_per_group : Nat) :
    ∃ m, ResNet.init .bottleneck layers num_classes zir groups width_per_group none =
      Except.ok m := by
  unfold ResNet.init
  simp only [Option.getD_none]
  rw [if_neg (by simp)]
  simp only [show ([false, false, false] : List Bool).getD 0 false = false from rfl,
    show ([false, false, false] : List Bool).getD 1 false = false from rfl,
    show ([false, false, false] : List Bool).getD 2 false = false from rfl]
  obtain ⟨⟨l1, s1⟩, h1⟩ :=
    make_layer_bottleneck_ok groups width_per_group ⟨64, 1⟩ 64 layers.1 1 false
  simp only [h1]
  obtain ⟨⟨l2, s2⟩, h2⟩ :=
    make_layer_bottleneck_ok groups width_per_group s1 128 layers.2.1 2 false
  simp only [h2]
  obtain ⟨⟨l3, s3⟩, h3⟩ :=
    make_layer_bottleneck_ok groups width_per_group s2 256 layers.2.2.1 2 false
  simp only [h3]
  obtain ⟨⟨l4, s4⟩, h4⟩ :=
    make_layer_bottleneck_ok groups width_per_group s3 512 layers.2.2.2 2 false
  simp only [h4]
  exact ⟨_, rfl⟩

/-- A successfully constructed network records its template and a head of
width `512 * expansion` by `num_classes`. -/
theorem ResNet.init_block_fc {block : BlockTemplate} {layers : Nat × Nat × Nat × Nat}
    {num_classes : Nat} {zir : Bool} {groups width_per_group : Nat}
    {rswd0 : Option (List Bool)} {m : ResNet}
    (h : ResNet.init block layers num_classes zir groups width_per_group rswd0 =
      Except.ok m) :
    m.block = block ∧ m.fc = Linear.new (512 * block.expansion) num_classes := by
  obtain ⟨d2, d3, d4, l1, l2, l3, l4, s1, s2, s3, s4, _, _, _, _, _, hm⟩ :=
    ResNet.init_eq_ok h
  simp only at hm
  subst hm
  cases zir <;>
    simp [ResNet.zero_init, ResNet.init_weights, ResNet.map_norms]

/-- What C8 asserts of one preset `f` with expansion `e` at class count
`nc ≠ 1000`: both calls succeed, the head of the `nc` variant is a fresh
`Linear(512 * e, nc)`, the default head is `Linear(512 * e, 1000)`, and the
stem and the four stages coincide. -/
def preset_head_spec (f : Nat → Except String ResNet) (e : Nat) (nc : Nat) : Prop :=
  ∃ m m0, f nc = Except.ok m ∧ f 1000 = Except.ok m0 ∧
    m.fc = Linear.new (512 * e) nc ∧ m0.fc = Linear.new (512 * e) 1000 ∧
    m.conv1 = m0.conv1 ∧ m.bn1 = m0.bn1 ∧ m.layer1 = m0.layer1 ∧
    m.layer2 = m0.layer2 ∧ m.layer3 = m0.layer3 ∧ m.layer4 = m0.layer4

/-- Every preset of the common shape (build, then rebuild only the head when
`num_classes ≠ 1000`) satisfies `preset_head_spec`. -/
theorem preset_head_spec_mk {t : BlockTemplate} {l : Nat × Nat × Nat × Nat} {M : ResNet}
    (hM : ResNet.init t l = Except.ok M)
    (f : Nat → Except String ResNet)
    (hf : ∀ k, f k =
      match ResNet.init t l with
      | .error e => .error e
      | .ok model =>
        if k ≠ 1000 then
          .ok { model with fc := Linear.new (512 * model.block.expansion) k }
        else .ok model)
    (nc : Nat) (hnc : nc ≠ 1000) :
    preset_head_spec f t.expansion nc := by
  have hbf := ResNet.init_block_fc hM
  refine ⟨{ M with fc := Linear.new (512 * t.expansion) nc }, M, ?_, ?_, rfl, hbf.2,
    rfl, rfl, rfl, rfl, rfl, rfl⟩
  · rw [hf nc]
    simp only [hM]
    rw [if_pos hnc, hbf.1]
  · rw [hf 1000]
    simp only [hM]
    rw [if_neg (by simp)]

/-- C8: for each of the five named presets called with `num_classes ≠ 1000`,
the returned model's head is a fresh linear layer of input width exactly
`512 * expansion` (512 for the BasicBlock presets, 2048 for the Bottleneck
presets) and output width `num_classes`, while the stem and the four stages
are exactly those of the `num_classes = 1000` construction, whose head
`Linear(512 * expansion, 1000)` is kept as built. -/
theorem C8_preset_heads (nc : Nat) (hnc : nc ≠ 1000) :
    preset_head_spec (fun k => resnet18 k) 1 nc ∧ preset_head_spec (fun k => resnet34 k) 1 nc ∧
    preset_head_spec (fun k => resnet50 k) 4 nc ∧ preset_head_spec (fun k => resnet101 k) 4 nc ∧
    preset_head_spec (fun k => resnet152 k) 4 nc := by
  obtain ⟨M18, h18⟩ : ∃ M, ResNet.init .basic (2, 2, 2, 2) = Except.ok M := ⟨_, rfl⟩
  obtain ⟨M34, h34⟩ : ∃ M, ResNet.init .basic (3, 4, 6, 3) = Except.ok M := ⟨_, rfl⟩
  obtain ⟨M50, h50⟩ := ResNet.init_bottleneck_ok (3, 4, 6, 3) 1000 false 1 64
  obtain ⟨M101, h101⟩ := ResNet.init_bottleneck_ok (3, 4, 23, 3) 1000 false 1 64
  obtain ⟨M152, h152⟩ := ResNet.init_bottleneck_ok (3, 8, 36, 3) 1000 false 1 64
  exact ⟨preset_head_spec_mk h18 (fun k => resnet18 k) (fun k => rfl) nc hnc,
         preset_head_spec_mk h34 (fun k => resnet34 k) (fun k => rfl) nc hnc,
         preset_head_spec_mk h50 (fun k => resnet50 k) (fun k => rfl) nc hnc,
         preset_head_spec_mk h101 (fun k => resnet101 k) (fun k => rfl) nc hnc,
         preset_head_spec_mk h152 (fun k => resnet152 k) (fun k => rfl) nc hnc⟩

/-- Witness for C8 at `num_classes = 10`. -/
theorem C8_preset_heads_witness :
    preset_head_spec (fun k => resnet18 k) 1 10 ∧ preset_head_spec (fun k => resnet34 k) 1 10 ∧
    preset_head_spec (fun k => resnet50 k) 4 10 ∧ preset_head_spec (fun k => resnet101 k) 4 10 ∧
    preset_head_spec (fun k => resnet152 k) 4 10 :=
  C8_preset_heads 10 (by decide)

end PEEN
